import Mathlib

/-!
Shallow embedding of the DX9 texture cache (GPU/Directx9/TextureCacheDX9.cpp)
of the PPSSPP emulator, together with proofs of the behavioural properties
stated in the accompanying specification.  Machine integers are modelled as
Nat with explicit reduction modulo 2^32 where 32-bit wraparound matters;
byte buffers are lists of byte values; D3D device calls that can fail are
modelled by explicit success oracles.
-/

namespace DX9

/-- Guest palette (CLUT) formats (GEPaletteFormat from GPU/ge_constants.h,
raw values 0..3 in the order listed). -/
inductive GEPaletteFormat where
  | GE_CMODE_16BIT_BGR5650
  | GE_CMODE_16BIT_ABGR5551
  | GE_CMODE_16BIT_ABGR4444
  | GE_CMODE_32BIT_ABGR8888
deriving DecidableEq, Repr

/-- Guest texture formats (GETextureFormat from GPU/ge_constants.h). -/
inductive GETextureFormat where
  | GE_TFMT_5650
  | GE_TFMT_5551
  | GE_TFMT_4444
  | GE_TFMT_8888
  | GE_TFMT_CLUT4
  | GE_TFMT_CLUT8
  | GE_TFMT_CLUT16
  | GE_TFMT_CLUT32
  | GE_TFMT_DXT1
  | GE_TFMT_DXT3
  | GE_TFMT_DXT5
deriving DecidableEq, Repr

/-- D3D9 pixel formats appearing in the texture cache. -/
inductive D3DFORMAT where
  | D3DFMT_A4R4G4B4
  | D3DFMT_A1R5G5B5
  | D3DFMT_R5G6B5
  | D3DFMT_A8R8G8B8
deriving DecidableEq, Repr

/-- Thin-layer data formats (Draw::DataFormat); only R8G8B8A8_UNORM is named
in the source, every other value falls into the switch default. -/
inductive DrawDataFormat where
  | R8G8B8A8_UNORM
  | B8G8R8A8_UNORM
deriving DecidableEq, Repr

/-- ToD3D9Format: the source switch maps R8G8B8A8_UNORM and the default case
alike to D3DFMT_A8R8G8B8. -/
def ToD3D9Format (_fmt : DrawDataFormat) : D3DFORMAT :=
  .D3DFMT_A8R8G8B8

/-- getClutDestFormat: D3D9 destination format for each guest palette format. -/
def getClutDestFormat (format : GEPaletteFormat) : D3DFORMAT :=
  match format with
  | .GE_CMODE_16BIT_ABGR4444 => .D3DFMT_A4R4G4B4
  | .GE_CMODE_16BIT_ABGR5551 => .D3DFMT_A1R5G5B5
  | .GE_CMODE_16BIT_BGR5650 => .D3DFMT_R5G6B5
  | .GE_CMODE_32BIT_ABGR8888 => .D3DFMT_A8R8G8B8

/-- GetDestFormat: D3D9 destination format for each guest texture format
(indexed formats resolve through the palette destination format). -/
def GetDestFormat (format : GETextureFormat) (clutFormat : GEPaletteFormat) : D3DFORMAT :=
  match format with
  | .GE_TFMT_CLUT4 | .GE_TFMT_CLUT8 | .GE_TFMT_CLUT16 | .GE_TFMT_CLUT32 =>
      getClutDestFormat clutFormat
  | .GE_TFMT_4444 => .D3DFMT_A4R4G4B4
  | .GE_TFMT_5551 => .D3DFMT_A1R5G5B5
  | .GE_TFMT_5650 => .D3DFMT_R5G6B5
  | _ => .D3DFMT_A8R8G8B8

/-- Modelled from the spec: IsClutFormat (declared in GPU/ge_constants.h,
not part of the excerpt) recognises the indexed (CLUT) texture formats. -/
def IsClutFormat (format : GETextureFormat) : Bool :=
  match format with
  | .GE_TFMT_CLUT4 | .GE_TFMT_CLUT8 | .GE_TFMT_CLUT16 | .GE_TFMT_CLUT32 => true
  | _ => false

/-- Modelled from the spec: result of the alpha classification scan
(fully opaque vs. has some transparency). -/
inductive CheckAlphaResult where
  | CHECKALPHA_FULL
  | CHECKALPHA_ANY
deriving DecidableEq, Repr

/-- Modelled from the spec: CheckAlpha16 (GPU/Common/TextureDecoder.h, not
part of the excerpt) scans 16-bit pixels against the format's alpha mask and
reports fully opaque exactly when every pixel has all mask bits set; the
real scan short-circuits at the first non-opaque pixel. -/
def CheckAlpha16 (pixels : List Nat) (mask : Nat) : CheckAlphaResult :=
  if pixels.all (fun p => (p &&& mask) == mask) then .CHECKALPHA_FULL else .CHECKALPHA_ANY

/-- Modelled from the spec: CheckAlpha32, the 32-bit pixel variant of the
alpha-mask scan. -/
def CheckAlpha32 (pixels : List Nat) (mask : Nat) : CheckAlphaResult :=
  if pixels.all (fun p => (p &&& mask) == mask) then .CHECKALPHA_FULL else .CHECKALPHA_ANY

/-- Little-endian 16-bit value at index `i` of a byte buffer (u16_le view). -/
def u16At (buf : List Nat) (i : Nat) : Nat :=
  buf.getD (2 * i) 0 + 256 * buf.getD (2 * i + 1) 0

/-- Little-endian 32-bit value at index `i` of a byte buffer. -/
def u32At (buf : List Nat) (i : Nat) : Nat :=
  buf.getD (4 * i) 0 + 256 * buf.getD (4 * i + 1) 0 +
    65536 * buf.getD (4 * i + 2) 0 + 16777216 * buf.getD (4 * i + 3) 0

/-- View of the first `w` 16-bit entries of a byte buffer. -/
def u16List (buf : List Nat) (w : Nat) : List Nat :=
  (List.range w).map (u16At buf)

/-- View of the first `w` 32-bit entries of a byte buffer. -/
def u32List (buf : List Nat) (w : Nat) : List Nat :=
  (List.range w).map (u32At buf)

/-- TextureCacheDX9::CheckAlpha : dispatch on the destination format; the
5-6-5 format carries no alpha and is reported fully opaque without looking
at the pixels, the other formats scan `w` pixels against the format's alpha
mask. -/
def CheckAlpha (pixelData : List Nat) (dstFmt : D3DFORMAT) (w : Nat) : CheckAlphaResult :=
  match dstFmt with
  | .D3DFMT_A4R4G4B4 => CheckAlpha16 (u16List pixelData w) 0xF000
  | .D3DFMT_A1R5G5B5 => CheckAlpha16 (u16List pixelData w) 0x8000
  | .D3DFMT_R5G6B5 => .CHECKALPHA_FULL
  | .D3DFMT_A8R8G8B8 => CheckAlpha32 (u32List pixelData w) 0xFF000000

/-- Bytes per palette entry: 4 for the 32-bit palette format, 2 otherwise. -/
def bytesPerClutEntry (fmt : GEPaletteFormat) : Nat :=
  if fmt = .GE_CMODE_32BIT_ABGR8888 then 4 else 2

/-- Texture-cache state read by UpdateCurrentClut. -/
structure ClutState where
  clutBufRaw : List Nat
  clutTotalBytes : Nat
  clutMaxBytes : Nat
  replacerEnabled : Bool
deriving Repr

/-- State written by UpdateCurrentClut. -/
structure ClutResult where
  clutHash : Nat
  hashedBytes : Nat
  hashInputBytes : List Nat
  clutAlphaLinear : Bool
  clutAlphaLinearColor : Nat
deriving Repr

/-- Modelled from the spec: the fast non-cryptographic digest (ext/xxhash,
an external library not part of the excerpt); any deterministic function of
the hashed byte prefix; modelled as a simple 32-bit fold. -/
def specClutHash (bytes : List Nat) : Nat :=
  bytes.foldl (fun h b => (h * 31 + b) % 4294967296) 2166136261

/-- TextureCacheDX9::UpdateCurrentClut : hashes the declared touched range
extended by the palette base offset and capped at the maximum palette size,
and detects the alpha-linear fast path for the 4444 palette format with a
simple index. 32-bit arithmetic is reduced modulo 2^32. -/
def UpdateCurrentClut (s : ClutState) (clutFormat : GEPaletteFormat) (clutBase : Nat)
    (clutIndexIsSimple : Bool) : ClutResult :=
  let clutBaseBytes := (clutBase * bytesPerClutEntry clutFormat) % 4294967296
  let clutExtendedBytes := min ((s.clutTotalBytes + clutBaseBytes) % 4294967296) s.clutMaxBytes
  let hashInput := s.clutBufRaw.take clutExtendedBytes
  let hash := specClutHash hashInput
  if clutFormat = .GE_CMODE_16BIT_ABGR4444 ∧ clutIndexIsSimple = true then
    let base := u16At s.clutBufRaw 15 &&& 0x0FFF
    let linear := (List.range 16).all (fun i => u16At s.clutBufRaw i == (base ||| (i <<< 12)))
    { clutHash := hash, hashedBytes := clutExtendedBytes, hashInputBytes := hashInput,
      clutAlphaLinear := linear, clutAlphaLinearColor := base }
  else
    { clutHash := hash, hashedBytes := clutExtendedBytes, hashInputBytes := hashInput,
      clutAlphaLinear := false, clutAlphaLinearColor := 0 }

example :
    (UpdateCurrentClut ⟨[0x23, 0x01, 0x23, 0x11, 0x23, 0x21, 0x23, 0x31,
      0x23, 0x41, 0x23, 0x51, 0x23, 0x61, 0x23, 0x71, 0x23, 0x81, 0x23, 0x91,
      0x23, 0xA1, 0x23, 0xB1, 0x23, 0xC1, 0x23, 0xD1, 0x23, 0xE1, 0x23, 0xF1],
      32, 1024, false⟩ .GE_CMODE_16BIT_ABGR4444 0 true).clutAlphaLinear = true := by
  decide

example :
    (UpdateCurrentClut ⟨[0x23, 0x01, 0x23, 0x11], 32, 1024, false⟩
      .GE_CMODE_16BIT_ABGR4444 0 true).clutAlphaLinear = false := by
  decide

/-- gstate.getClutPaletteFormat() : the palette format is the low two bits of
the raw clutformat register. -/
def paletteFormatFromRaw (raw : Nat) : GEPaletteFormat :=
  match raw % 4 with
  | 0 => .GE_CMODE_16BIT_BGR5650
  | 1 => .GE_CMODE_16BIT_ABGR5551
  | 2 => .GE_CMODE_16BIT_ABGR4444
  | _ => .GE_CMODE_32BIT_ABGR8888

/-- Inputs read by ApplyTextureFramebuffer: the texFormat argument, GPU state
registers, configuration, the depal shader cache's reply (whether
GetDepalettizePixelShader returns a shader for the current clut mode and
framebuffer format), the current CLUT buffer, and the framebuffer, whose
color contents `fbPixels` this function never reads. -/
structure ApplyFBInput where
  texFormat : GETextureFormat
  gstateTexFormat : GETextureFormat
  clutformatRaw : Nat
  disableSlowFramebufEffects : Bool
  depalShaderAvailable : Bool
  clutBuf : List Nat
  clutMaxBytes : Nat
  fbPixels : List Nat
deriving Repr

/-- Observable outcome of ApplyTextureFramebuffer: which of the two paths ran
and the full-alpha flag pushed into the render state. -/
structure ApplyFBResult where
  usedDepalPass : Bool
  fullAlpha : Bool
deriving DecidableEq, Repr

/-- TextureCacheDX9::ApplyTextureFramebuffer : obtains a depalettize pixel
shader only when the guest texture format is indexed and slow framebuffer
effects are not disabled; runs the depalettize pass when a shader was
obtained, deriving the full-alpha flag from a CheckAlpha scan of the CLUT
buffer in the palette destination format; otherwise binds the framebuffer
directly and reports full alpha exactly for the 5650 guest texture format. -/
def ApplyTextureFramebuffer (s : ApplyFBInput) : ApplyFBResult :=
  let need_depalettize := IsClutFormat s.texFormat
  let pshader : Option Unit :=
    if need_depalettize = true ∧ s.disableSlowFramebufEffects = false then
      (if s.depalShaderAvailable then some () else none)
    else none
  match pshader with
  | some _ =>
    let clutFormat := paletteFormatFromRaw s.clutformatRaw
    let bytesPerColor := if clutFormat = .GE_CMODE_32BIT_ABGR8888 then 4 else 2
    let clutTotalColors := s.clutMaxBytes / bytesPerColor
    let alphaStatus := CheckAlpha s.clutBuf (getClutDestFormat clutFormat) clutTotalColors
    { usedDepalPass := true, fullAlpha := alphaStatus = .CHECKALPHA_FULL }
  | none =>
    { usedDepalPass := false, fullAlpha := s.gstateTexFormat = .GE_TFMT_5650 }

/-- D3D9 texture filter values used by ApplySamplingParams. -/
inductive D3DTexFilter where
  | D3DTEXF_POINT
  | D3DTEXF_LINEAR
  | D3DTEXF_ANISOTROPIC
deriving DecidableEq, Repr

/-- D3D9 texture addressing modes used by ApplySamplingParams. -/
inductive D3DTexAddress where
  | D3DTADDRESS_CLAMP
  | D3DTADDRESS_WRAP
deriving DecidableEq, Repr

/-- Sampler cache key fields read by ApplySamplingParams (SamplerCacheKey`s
declaration lives in GPU/Common/TextureCacheCommon.h). -/
structure SamplerCacheKey where
  minFilt : Bool
  mipFilt : Bool
  magFilt : Bool
  mipEnable : Bool
  lodBias : Int
  minLevel : Int
  sClamp : Bool
  tClamp : Bool
deriving DecidableEq, Repr

/-- Sampler state written through dxstate by ApplySamplingParams.  The LOD
bias is an exactly-representable float, modelled as a rational. -/
structure DxSamplerState where
  texMinFilter : D3DTexFilter
  texMipFilter : D3DTexFilter
  texMagFilter : D3DTexFilter
  texMaxMipLevel : Int
  texMipLodBias : ℚ
  texAddressU : D3DTexAddress
  texAddressV : D3DTexAddress
deriving DecidableEq, Repr

/-- TextureCacheDX9::ApplySamplingParams : derives native filter, wrap, mip
bias and max-mip settings from the sampler key; when guest mip-mapping is
disabled it pins sampling to the top level via max level 0 and a -100 LOD
bias. -/
def ApplySamplingParams (key : SamplerCacheKey) : DxSamplerState :=
  { texMinFilter := if key.minFilt then .D3DTEXF_LINEAR else .D3DTEXF_POINT
    texMipFilter := if key.mipFilt then .D3DTEXF_LINEAR else .D3DTEXF_POINT
    texMagFilter := if key.magFilt then .D3DTEXF_LINEAR else .D3DTEXF_POINT
    texMaxMipLevel := if key.mipEnable then Int.tdiv key.minLevel 256 else 0
    texMipLodBias := if key.mipEnable then (key.lodBias : ℚ) / 256 else -100
    texAddressU := if key.sClamp then .D3DTADDRESS_CLAMP else .D3DTADDRESS_WRAP
    texAddressV := if key.tClamp then .D3DTADDRESS_CLAMP else .D3DTADDRESS_WRAP }

/-- Fields of BuildTexturePlan consumed by TextureCacheDX9::BuildTexture.
`replacedValidSize` is whether plan.replaced->GetSize(plan.baseLevelSrc, ...)
reports a valid replacement size for the base level, in which case
`replacedW`, `replacedH`, `replacedFmt` are the values it reports. -/
structure BuildTexturePlan where
  w : Nat
  h : Nat
  depth : Nat
  scaleFactor : Nat
  levelsToCreate : Nat
  levelsToLoad : Nat
  baseLevelSrc : Nat
  replacedValidSize : Bool
  replacedW : Nat
  replacedH : Nat
  replacedFmt : DrawDataFormat

/-- Success oracle for the D3D9 device calls made by BuildTexture:
whether CreateTexture / CreateVolumeTexture succeeds, and whether
LockRect / LockBox succeeds at a given destination level. -/
structure D3DDevice where
  createOk : Bool
  lockOk : Nat → Bool

/-- Observable outcome of BuildTexture: the entry's native texture handle
after the build, the final target geometry and format, the mip level count
passed to the texture creation call, and the destination / source level
indices actually uploaded. -/
structure BuildResult where
  texture : Option Unit
  tw : Nat
  th : Nat
  dstFmt : D3DFORMAT
  createdLevels : Nat
  uploadedDstLevels : List Nat
  uploadedSrcLevels : List Nat

/-- Geometry and destination-format selection at the top of
TextureCacheDX9::BuildTexture : the replacement size and format take
precedence, else the upscale branch multiplies dimensions and forces
A8R8G8B8, else decoded geometry with the guest-format mapping. -/
def buildGeom (plan : BuildTexturePlan) (entryFormat : GETextureFormat)
    (clutFormat : GEPaletteFormat) : Nat × Nat × D3DFORMAT :=
  if plan.replacedValidSize then
    (plan.replacedW, plan.replacedH, ToD3D9Format plan.replacedFmt)
  else if 1 < plan.scaleFactor then
    (plan.w * plan.scaleFactor, plan.h * plan.scaleFactor, D3DFORMAT.D3DFMT_A8R8G8B8)
  else
    (plan.w, plan.h, GetDestFormat entryFormat clutFormat)

/-- TextureCacheDX9::BuildTexture : plans geometry and format via buildGeom,
clamps the level count to min(levelsToCreate, levelsToLoad), creates the
native texture (releasing the entry's handle and returning on failure),
then uploads each level, abandoning the remaining levels at the first lock
failure. -/
def BuildTexture (dev : D3DDevice) (plan : BuildTexturePlan)
    (entryFormat : GETextureFormat) (clutFormat : GEPaletteFormat) : BuildResult :=
  let twth := buildGeom plan entryFormat clutFormat
  let tw := twth.1
  let th := twth.2.1
  let dstFmt := twth.2.2
  let levels := min plan.levelsToCreate plan.levelsToLoad
  let createdLevels := if plan.depth = 1 then levels else 1
  if dev.createOk = false then
    { texture := none, tw := tw, th := th, dstFmt := dstFmt, createdLevels := createdLevels,
      uploadedDstLevels := [], uploadedSrcLevels := [] }
  else if plan.depth = 1 then
    let dst := (List.range levels).takeWhile dev.lockOk
    { texture := some (), tw := tw, th := th, dstFmt := dstFmt, createdLevels := createdLevels,
      uploadedDstLevels := dst,
      uploadedSrcLevels := dst.map (fun i => if i = 0 then plan.baseLevelSrc else i) }
  else if dev.lockOk 0 then
    { texture := some (), tw := tw, th := th, dstFmt := dstFmt, createdLevels := createdLevels,
      uploadedDstLevels := [0],
      uploadedSrcLevels :=
        (List.range plan.depth).map (fun i => if i = 0 then plan.baseLevelSrc else i) }
  else
    { texture := some (), tw := tw, th := th, dstFmt := dstFmt, createdLevels := createdLevels,
      uploadedDstLevels := [], uploadedSrcLevels := [] }

/-! Helper lemmas shared by the claim theorems. -/

theorem checkAlpha16_full_iff (pixels : List Nat) (mask : Nat) :
    CheckAlpha16 pixels mask = .CHECKALPHA_FULL ↔ ∀ p ∈ pixels, p &&& mask = mask := by
  unfold CheckAlpha16
  split
  · rename_i h
    simp only [true_iff]
    intro p hp
    have := List.all_eq_true.mp h p hp
    exact beq_iff_eq.mp this
  · rename_i h
    simp only [reduceCtorEq, false_iff]
    intro hall
    exact h (List.all_eq_true.mpr fun p hp => beq_iff_eq.mpr (hall p hp))

theorem checkAlpha32_full_iff (pixels : List Nat) (mask : Nat) :
    CheckAlpha32 pixels mask = .CHECKALPHA_FULL ↔ ∀ p ∈ pixels, p &&& mask = mask := by
  unfold CheckAlpha32
  split
  · rename_i h
    simp only [true_iff]
    intro p hp
    exact beq_iff_eq.mp (List.all_eq_true.mp h p hp)
  · rename_i h
    simp only [reduceCtorEq, false_iff]
    intro hall
    exact h (List.all_eq_true.mpr fun p hp => beq_iff_eq.mpr (hall p hp))

/-- Evaluation of ApplyTextureFramebuffer when no depalettize shader is
obtained (the direct-bind path). -/
theorem applyFB_eq_direct (s : ApplyFBInput)
    (h : ¬(IsClutFormat s.texFormat = true ∧ s.disableSlowFramebufEffects = false ∧
        s.depalShaderAvailable = true)) :
    ApplyTextureFramebuffer s =
      { usedDepalPass := false, fullAlpha := decide (s.gstateTexFormat = .GE_TFMT_5650) } := by
  unfold ApplyTextureFramebuffer
  by_cases h1 : IsClutFormat s.texFormat = true ∧ s.disableSlowFramebufEffects = false
  · have h2 : s.depalShaderAvailable = false := by
      rcases h1 with ⟨ha, hb⟩
      cases hs : s.depalShaderAvailable
      · rfl
      · exact absurd ⟨ha, hb, hs⟩ h
    simp [h1, h2]
  · simp [h1]

/-- Evaluation of ApplyTextureFramebuffer when a depalettize shader is
obtained (the depalettize-pass path). -/
theorem applyFB_eq_depal (s : ApplyFBInput)
    (h1 : IsClutFormat s.texFormat = true) (h2 : s.disableSlowFramebufEffects = false)
    (h3 : s.depalShaderAvailable = true) :
    ApplyTextureFramebuffer s =
      { usedDepalPass := true,
        fullAlpha := decide (CheckAlpha s.clutBuf
          (getClutDestFormat (paletteFormatFromRaw s.clutformatRaw))
          (s.clutMaxBytes /
            (if paletteFormatFromRaw s.clutformatRaw = .GE_CMODE_32BIT_ABGR8888 then 4 else 2)) =
          .CHECKALPHA_FULL) } := by
  unfold ApplyTextureFramebuffer
  simp [h1, h2, h3]

/-- Path selection in ApplyTextureFramebuffer as an iff, shared helper. -/
theorem applyFB_usedDepal_iff (s : ApplyFBInput) :
    (ApplyTextureFramebuffer s).usedDepalPass = true ↔
      (IsClutFormat s.texFormat = true ∧ s.disableSlowFramebufEffects = false ∧
        s.depalShaderAvailable = true) := by
  constructor
  · intro h
    by_contra hc
    rw [applyFB_eq_direct s hc] at h
    simp at h
  · rintro ⟨h1, h2, h3⟩
    rw [applyFB_eq_depal s h1 h2 h3]

/-- Mask with the low 12 bits always yields a value below 4096. -/
theorem and_fff_lt (x : Nat) : x &&& 4095 < 4096 :=
  Nat.lt_succ_of_le Nat.and_le_right

/-- Recovering a 12-bit base color from palette entry 15. -/
theorem or_shift_and_fff (b : Nat) (hb : b < 4096) : (b ||| (15 <<< 12)) &&& 4095 = b := by
  have h1 : (4095 : Nat) = 2 ^ 12 - 1 := by norm_num
  rw [h1, Nat.and_pow_two_sub_one_eq_mod]
  apply Nat.eq_of_testBit_eq
  intro i
  rw [Nat.testBit_mod_two_pow, Nat.testBit_or, Nat.testBit_shiftLeft]
  by_cases hi : i < 12
  · have hge : ¬(i ≥ 12) := by omega
    simp [hi, hge]
  · have h2 : (4096 : Nat) ≤ 2 ^ i := by
      calc (4096 : Nat) = 2 ^ 12 := by norm_num
        _ ≤ 2 ^ i := Nat.pow_le_pow_right (by norm_num) (by omega)
    have hbi : b.testBit i = false := Nat.testBit_lt_two_pow (lt_of_lt_of_le hb h2)
    simp [hi, hbi]

/-- Evaluation of the alpha-linear detection fields of UpdateCurrentClut in
the 4444-with-simple-index case. -/
theorem updateClut_alphaLinear_eval (s : ClutState) (cb : Nat) :
    (UpdateCurrentClut s .GE_CMODE_16BIT_ABGR4444 cb true).clutAlphaLinear =
      (List.range 16).all
        (fun i => u16At s.clutBufRaw i == ((u16At s.clutBufRaw 15 &&& 4095) ||| (i <<< 12))) ∧
    (UpdateCurrentClut s .GE_CMODE_16BIT_ABGR4444 cb true).clutAlphaLinearColor =
      u16At s.clutBufRaw 15 &&& 4095 := by
  unfold UpdateCurrentClut
  simp

/-- Evaluation of the hash-range fields of UpdateCurrentClut. -/
theorem updateClut_hash_eval (s : ClutState) (fmt : GEPaletteFormat) (cb : Nat) (simple : Bool) :
    (UpdateCurrentClut s fmt cb simple).hashedBytes =
      min ((s.clutTotalBytes + (cb * bytesPerClutEntry fmt) % 4294967296) % 4294967296)
        s.clutMaxBytes ∧
    (UpdateCurrentClut s fmt cb simple).hashInputBytes =
      s.clutBufRaw.take ((UpdateCurrentClut s fmt cb simple).hashedBytes) ∧
    (UpdateCurrentClut s fmt cb simple).clutHash =
      specClutHash ((UpdateCurrentClut s fmt cb simple).hashInputBytes) := by
  unfold UpdateCurrentClut
  split <;> simp

/-- Every branch of BuildTexture reports the geometry and format selected by
buildGeom. -/
theorem buildTexture_geom (dev : D3DDevice) (plan : BuildTexturePlan)
    (ef : GETextureFormat) (cf : GEPaletteFormat) :
    (BuildTexture dev plan ef cf).tw = (buildGeom plan ef cf).1 ∧
    (BuildTexture dev plan ef cf).th = (buildGeom plan ef cf).2.1 ∧
    (BuildTexture dev plan ef cf).dstFmt = (buildGeom plan ef cf).2.2 := by
  unfold BuildTexture
  simp only []
  repeat' split
  all_goals simp

/-! Theorems for the individual claims, C1 through C10. -/

/-- C1: for the 16-color 4-bit-alpha palette format (ABGR4444) with a simple
index, UpdateCurrentClut sets clutAlphaLinear exactly when the 16-entry
palette is a pure alpha ramp over a single 12-bit base color — entry i =
base | (i << 12) for all i < 16 — and in that case clutAlphaLinearColor is
that base color. -/
theorem updateCurrentClut_alphaLinear (s : ClutState) (cb : Nat) :
    ((UpdateCurrentClut s .GE_CMODE_16BIT_ABGR4444 cb true).clutAlphaLinear = true ↔
      ∃ base, base < 4096 ∧ ∀ i < 16, u16At s.clutBufRaw i = base ||| (i <<< 12)) ∧
    (∀ base, base < 4096 → (∀ i < 16, u16At s.clutBufRaw i = base ||| (i <<< 12)) →
      (UpdateCurrentClut s .GE_CMODE_16BIT_ABGR4444 cb true).clutAlphaLinearColor = base) := by
  obtain ⟨hlin, hcol⟩ := updateClut_alphaLinear_eval s cb
  constructor
  · rw [hlin]
    constructor
    · intro h
      refine ⟨u16At s.clutBufRaw 15 &&& 4095, and_fff_lt _, ?_⟩
      intro i hi
      exact beq_iff_eq.mp (List.all_eq_true.mp h i (List.mem_range.mpr hi))
    · rintro ⟨b, hb, hall⟩
      have hbase : u16At s.clutBufRaw 15 &&& 4095 = b := by
        rw [hall 15 (by norm_num)]
        exact or_shift_and_fff b hb
      apply List.all_eq_true.mpr
      intro i hi
      show (u16At s.clutBufRaw i == ((u16At s.clutBufRaw 15 &&& 4095) ||| (i <<< 12))) = true
      rw [hbase]
      exact beq_iff_eq.mpr (hall i (List.mem_range.mp hi))
  · intro b hb hall
    rw [hcol, hall 15 (by norm_num)]
    exact or_shift_and_fff b hb

/-- Witness for C1: the ascending alpha ramp over base color 0x123 is
detected, with clutAlphaLinearColor reporting 0x123. -/
theorem updateCurrentClut_alphaLinear_witness :
    (UpdateCurrentClut ⟨[0x23, 0x01, 0x23, 0x11, 0x23, 0x21, 0x23, 0x31,
      0x23, 0x41, 0x23, 0x51, 0x23, 0x61, 0x23, 0x71, 0x23, 0x81, 0x23, 0x91,
      0x23, 0xA1, 0x23, 0xB1, 0x23, 0xC1, 0x23, 0xD1, 0x23, 0xE1, 0x23, 0xF1],
      32, 1024, false⟩ .GE_CMODE_16BIT_ABGR4444 0 true).clutAlphaLinearColor = 0x123 :=
  (updateCurrentClut_alphaLinear ⟨[0x23, 0x01, 0x23, 0x11, 0x23, 0x21, 0x23, 0x31,
      0x23, 0x41, 0x23, 0x51, 0x23, 0x61, 0x23, 0x71, 0x23, 0x81, 0x23, 0x91,
      0x23, 0xA1, 0x23, 0xB1, 0x23, 0xC1, 0x23, 0xD1, 0x23, 0xE1, 0x23, 0xF1],
      32, 1024, false⟩ 0).2 0x123 (by norm_num) (by decide)

/-- C2: in the 2D build path the mip level count passed to texture creation
is exactly min(levelsToCreate, levelsToLoad), every uploaded destination
level index is below that minimum, and when creation and all locks succeed
the uploaded levels are exactly 0, ..., min - 1. -/
theorem buildTexture_mipClamp (dev : D3DDevice) (plan : BuildTexturePlan)
    (ef : GETextureFormat) (cf : GEPaletteFormat) (hd : plan.depth = 1) :
    (BuildTexture dev plan ef cf).createdLevels =
      min plan.levelsToCreate plan.levelsToLoad ∧
    (∀ i ∈ (BuildTexture dev plan ef cf).uploadedDstLevels,
      i < min plan.levelsToCreate plan.levelsToLoad) ∧
    (dev.createOk = true → (∀ j, dev.lockOk j = true) →
      (BuildTexture dev plan ef cf).uploadedDstLevels =
        List.range (min plan.levelsToCreate plan.levelsToLoad)) := by
  unfold BuildTexture
  cases hco : dev.createOk
  · simp [hco, hd]
  · simp only [hco, hd]
    refine ⟨by simp, ?_, ?_⟩
    · intro i hi
      simp only [Bool.true_eq_false, if_false, if_pos rfl] at hi
      have hmem : i ∈ List.range (min plan.levelsToCreate plan.levelsToLoad) :=
        (List.takeWhile_sublist _).subset hi
      exact List.mem_range.mp hmem
    · intro _ hl
      simp only [Bool.true_eq_false, if_false, if_pos rfl]
      exact List.takeWhile_eq_self_iff.mpr fun x _ => hl x

/-- Witness for C2: a successful 2D build with three requested and two
loadable levels uploads exactly levels 0 and 1. -/
theorem buildTexture_mipClamp_witness :
    (BuildTexture ⟨true, fun _ => true⟩
      ⟨16, 16, 1, 1, 3, 2, 0, false, 16, 16, .R8G8B8A8_UNORM⟩
      .GE_TFMT_8888 .GE_CMODE_32BIT_ABGR8888).uploadedDstLevels = List.range (min 3 2) :=
  (buildTexture_mipClamp ⟨true, fun _ => true⟩
      ⟨16, 16, 1, 1, 3, 2, 0, false, 16, 16, .R8G8B8A8_UNORM⟩
      .GE_TFMT_8888 .GE_CMODE_32BIT_ABGR8888 rfl).2.2 rfl (fun _ => rfl)

/-- C3: when the replacement descriptor reports a valid size for the base
level, the final target width, height, and destination format come from the
replacement, and changing the global upscale factor does not affect them. -/
theorem buildTexture_replacedOverride (dev : D3DDevice) (plan : BuildTexturePlan)
    (ef : GETextureFormat) (cf : GEPaletteFormat) (h : plan.replacedValidSize = true) :
    (BuildTexture dev plan ef cf).tw = plan.replacedW ∧
    (BuildTexture dev plan ef cf).th = plan.replacedH ∧
    (BuildTexture dev plan ef cf).dstFmt = ToD3D9Format plan.replacedFmt ∧
    (∀ k, (BuildTexture dev { plan with scaleFactor := k } ef cf).tw = plan.replacedW ∧
      (BuildTexture dev { plan with scaleFactor := k } ef cf).th = plan.replacedH ∧
      (BuildTexture dev { plan with scaleFactor := k } ef cf).dstFmt =
        ToD3D9Format plan.replacedFmt) := by
  have hg : buildGeom plan ef cf =
      (plan.replacedW, plan.replacedH, ToD3D9Format plan.replacedFmt) := by
    unfold buildGeom
    simp [h]
  obtain ⟨h1, h2, h3⟩ := buildTexture_geom dev plan ef cf
  refine ⟨by rw [h1, hg], by rw [h2, hg], by rw [h3, hg], ?_⟩
  intro k
  have hgk : buildGeom { plan with scaleFactor := k } ef cf =
      (plan.replacedW, plan.replacedH, ToD3D9Format plan.replacedFmt) := by
    unfold buildGeom
    simp [h]
  obtain ⟨g1, g2, g3⟩ := buildTexture_geom dev { plan with scaleFactor := k } ef cf
  exact ⟨by rw [g1, hgk], by rw [g2, hgk], by rw [g3, hgk]⟩

/-- Witness for C3: a 64x64 source with a valid 256x256 replacement and
upscale factor 4 builds at 256x256. -/
theorem buildTexture_replacedOverride_witness :
    (BuildTexture ⟨true, fun _ => true⟩
      ⟨64, 64, 1, 4, 1, 1, 0, true, 256, 256, .R8G8B8A8_UNORM⟩
      .GE_TFMT_8888 .GE_CMODE_32BIT_ABGR8888).tw = 256 :=
  (buildTexture_replacedOverride ⟨true, fun _ => true⟩
      ⟨64, 64, 1, 4, 1, 1, 0, true, 256, 256, .R8G8B8A8_UNORM⟩
      .GE_TFMT_8888 .GE_CMODE_32BIT_ABGR8888 rfl).1

/-- C4: ApplyTextureFramebuffer runs the depalettize shader pass exactly
when the guest texture format is an indexed (CLUT) format, slow framebuffer
effects are not disabled, and the shader cache yields a depalettize pixel
shader; otherwise the framebuffer is bound directly. -/
theorem applyTextureFramebuffer_pathSelect (s : ApplyFBInput) :
    (ApplyTextureFramebuffer s).usedDepalPass = true ↔
      (IsClutFormat s.texFormat = true ∧ s.disableSlowFramebufEffects = false ∧
        s.depalShaderAvailable = true) :=
  applyFB_usedDepal_iff s

/-- Witness for C4: an indexed format with effects enabled and an available
shader takes the depalettize pass. -/
theorem applyTextureFramebuffer_pathSelect_witness :
    (ApplyTextureFramebuffer
      ⟨.GE_TFMT_CLUT8, .GE_TFMT_5650, 0, false, true, [], 4, []⟩).usedDepalPass = true :=
  (applyTextureFramebuffer_pathSelect
      ⟨.GE_TFMT_CLUT8, .GE_TFMT_5650, 0, false, true, [], 4, []⟩).mpr (by decide)

/-- C5: on the depalettize path the full-alpha flag equals the CheckAlpha
scan of the CLUT buffer in the palette destination format over
clutMaxBytes / bytesPerColor entries, and it is unchanged by any change to
the framebuffer's pixel contents. -/
theorem applyTextureFramebuffer_depalAlphaFromClut (s : ApplyFBInput)
    (h : (ApplyTextureFramebuffer s).usedDepalPass = true) :
    (ApplyTextureFramebuffer s).fullAlpha =
      decide (CheckAlpha s.clutBuf
        (getClutDestFormat (paletteFormatFromRaw s.clutformatRaw))
        (s.clutMaxBytes /
          (if paletteFormatFromRaw s.clutformatRaw = .GE_CMODE_32BIT_ABGR8888 then 4 else 2)) =
        .CHECKALPHA_FULL) ∧
    (∀ px, (ApplyTextureFramebuffer { s with fbPixels := px }).fullAlpha =
      (ApplyTextureFramebuffer s).fullAlpha) := by
  obtain ⟨h1, h2, h3⟩ := (applyFB_usedDepal_iff s).mp h
  have he := applyFB_eq_depal s h1 h2 h3
  refine ⟨by rw [he], ?_⟩
  intro px
  have he2 := applyFB_eq_depal { s with fbPixels := px } h1 h2 h3
  rw [he, he2]

/-- Witness for C5: with an all-opaque two-entry 4444 palette the depal path
reports the palette scan's result. -/
theorem applyTextureFramebuffer_depalAlphaFromClut_witness :
    (ApplyTextureFramebuffer ⟨.GE_TFMT_CLUT4, .GE_TFMT_5650, 2, false, true,
        [0xFF, 0xFF, 0xFF, 0xFF], 4, []⟩).fullAlpha =
      decide (CheckAlpha [0xFF, 0xFF, 0xFF, 0xFF]
        (getClutDestFormat (paletteFormatFromRaw 2))
        (4 / (if paletteFormatFromRaw 2 = .GE_CMODE_32BIT_ABGR8888 then 4 else 2)) =
        .CHECKALPHA_FULL) :=
  (applyTextureFramebuffer_depalAlphaFromClut
      ⟨.GE_TFMT_CLUT4, .GE_TFMT_5650, 2, false, true, [0xFF, 0xFF, 0xFF, 0xFF], 4, []⟩
      (by decide)).1

/-- C6: CheckAlpha reports fully opaque for the 5-6-5 destination format
regardless of the pixel buffer, and for the 4444, 1555 and 32-bit formats it
reports fully opaque exactly when every scanned pixel has all bits of the
format's alpha mask set. -/
theorem checkAlpha_formats (buf : List Nat) (w : Nat) :
    CheckAlpha buf .D3DFMT_R5G6B5 w = .CHECKALPHA_FULL ∧
    (CheckAlpha buf .D3DFMT_A4R4G4B4 w = .CHECKALPHA_FULL ↔
      ∀ p ∈ u16List buf w, p &&& 0xF000 = 0xF000) ∧
    (CheckAlpha buf .D3DFMT_A1R5G5B5 w = .CHECKALPHA_FULL ↔
      ∀ p ∈ u16List buf w, p &&& 0x8000 = 0x8000) ∧
    (CheckAlpha buf .D3DFMT_A8R8G8B8 w = .CHECKALPHA_FULL ↔
      ∀ p ∈ u32List buf w, p &&& 0xFF000000 = 0xFF000000) :=
  ⟨rfl, checkAlpha16_full_iff _ _, checkAlpha16_full_iff _ _, checkAlpha32_full_iff _ _⟩

/-- Witness for C6: a 5-6-5 buffer with zero alpha bits is still reported
fully opaque. -/
theorem checkAlpha_formats_witness :
    CheckAlpha [0x12, 0x34] .D3DFMT_R5G6B5 1 = .CHECKALPHA_FULL :=
  (checkAlpha_formats [0x12, 0x34] 1).1

/-- C7: UpdateCurrentClut hashes exactly
min(clutTotalBytes + clutBase * bytesPerEntry, clutMaxBytes) bytes — the
declared touched range extended by the palette base offset, capped at the
largest supported palette size — and the hash is computed over exactly that
prefix of the palette buffer, provided the 32-bit sum does not wrap. -/
theorem updateCurrentClut_hashRange (s : ClutState) (fmt : GEPaletteFormat) (cb : Nat)
    (simple : Bool)
    (hov : s.clutTotalBytes + cb * bytesPerClutEntry fmt < 4294967296) :
    (UpdateCurrentClut s fmt cb simple).hashedBytes =
      min (s.clutTotalBytes + cb * bytesPerClutEntry fmt) s.clutMaxBytes ∧
    (UpdateCurrentClut s fmt cb simple).hashInputBytes =
      s.clutBufRaw.take ((UpdateCurrentClut s fmt cb simple).hashedBytes) ∧
    (UpdateCurrentClut s fmt cb simple).clutHash =
      specClutHash ((UpdateCurrentClut s fmt cb simple).hashInputBytes) := by
  obtain ⟨h1, h2, h3⟩ := updateClut_hash_eval s fmt cb simple
  refine ⟨?_, h2, h3⟩
  rw [h1]
  have hlt : cb * bytesPerClutEntry fmt < 4294967296 := by omega
  rw [Nat.mod_eq_of_lt hlt, Nat.mod_eq_of_lt hov]

/-- Witness for C7: a 4-byte upload with base offset 1 in a 16-bit palette
format hashes min(4 + 2, 1024) bytes. -/
theorem updateCurrentClut_hashRange_witness :
    (UpdateCurrentClut ⟨[1, 2, 3, 4, 5, 6, 7, 8], 4, 1024, false⟩
      .GE_CMODE_16BIT_ABGR5551 1 false).hashedBytes =
      min (4 + 1 * bytesPerClutEntry .GE_CMODE_16BIT_ABGR5551) 1024 :=
  (updateCurrentClut_hashRange ⟨[1, 2, 3, 4, 5, 6, 7, 8], 4, 1024, false⟩
      .GE_CMODE_16BIT_ABGR5551 1 false (by decide)).1

/-- C8: ApplySamplingParams, with guest mip-mapping disabled, forces
top-level-only sampling via max mip level 0 and LOD bias -100; with
mip-mapping enabled the LOD bias is lodBias / 256 and the max mip level is
minLevel / 256 from the key. -/
theorem applySamplingParams_mipWorkaround (key : SamplerCacheKey) :
    (key.mipEnable = false →
      (ApplySamplingParams key).texMaxMipLevel = 0 ∧
      (ApplySamplingParams key).texMipLodBias = -100) ∧
    (key.mipEnable = true →
      (ApplySamplingParams key).texMipLodBias = (key.lodBias : ℚ) / 256 ∧
      (ApplySamplingParams key).texMaxMipLevel = Int.tdiv key.minLevel 256) := by
  constructor <;> intro h <;> simp [ApplySamplingParams, h]

/-- Witness for C8: a key with mip-mapping disabled yields max level 0 and
bias -100. -/
theorem applySamplingParams_mipWorkaround_witness :
    (ApplySamplingParams ⟨true, true, true, false, 64, 512, true, false⟩).texMaxMipLevel = 0 ∧
    (ApplySamplingParams ⟨true, true, true, false, 64, 512, true, false⟩).texMipLodBias = -100 :=
  (applySamplingParams_mipWorkaround ⟨true, true, true, false, 64, 512, true, false⟩).1 rfl

/-- C9: if creating the destination texture object fails, BuildTexture
leaves the entry with no native texture (the handle is released to null) and
uploads no level, for both the 2D and the volume path; the build returns
normally rather than aborting. -/
theorem buildTexture_createFail_atomic (dev : D3DDevice) (plan : BuildTexturePlan)
    (ef : GETextureFormat) (cf : GEPaletteFormat) (h : dev.createOk = false) :
    (BuildTexture dev plan ef cf).texture = none ∧
    (BuildTexture dev plan ef cf).uploadedDstLevels = [] ∧
    (BuildTexture dev plan ef cf).uploadedSrcLevels = [] := by
  unfold BuildTexture
  simp [h]

/-- Witness for C9: a failing creation call leaves the entry textureless. -/
theorem buildTexture_createFail_atomic_witness :
    (BuildTexture ⟨false, fun _ => true⟩
      ⟨16, 16, 1, 1, 3, 2, 0, false, 16, 16, .R8G8B8A8_UNORM⟩
      .GE_TFMT_8888 .GE_CMODE_32BIT_ABGR8888).texture = none :=
  (buildTexture_createFail_atomic ⟨false, fun _ => true⟩
      ⟨16, 16, 1, 1, 3, 2, 0, false, 16, 16, .R8G8B8A8_UNORM⟩
      .GE_TFMT_8888 .GE_CMODE_32BIT_ABGR8888 rfl).1

/-- C10: on the direct-bind path the full-alpha flag is true exactly when
the guest texture format register holds GE_TFMT_5650, and the flag is
unchanged by any change to the framebuffer pixels or the palette buffer. -/
theorem applyTextureFramebuffer_directBindAlpha (s : ApplyFBInput)
    (h : (ApplyTextureFramebuffer s).usedDepalPass = false) :
    ((ApplyTextureFramebuffer s).fullAlpha = true ↔ s.gstateTexFormat = .GE_TFMT_5650) ∧
    (∀ px cb, (ApplyTextureFramebuffer
        { s with fbPixels := px, clutBuf := cb }).fullAlpha =
      (ApplyTextureFramebuffer s).fullAlpha) := by
  have hc : ¬(IsClutFormat s.texFormat = true ∧ s.disableSlowFramebufEffects = false ∧
      s.depalShaderAvailable = true) := by
    intro hcon
    have := (applyFB_usedDepal_iff s).mpr hcon
    rw [this] at h
    exact absurd h (by simp)
  have he := applyFB_eq_direct s hc
  constructor
  · rw [he]
    simp
  · intro px cb
    have he2 := applyFB_eq_direct { s with fbPixels := px, clutBuf := cb } hc
    rw [he, he2]

/-- Witness for C10: a non-indexed 8888 bind with the texture format
register at 5650 reports full alpha. -/
theorem applyTextureFramebuffer_directBindAlpha_witness :
    ((ApplyTextureFramebuffer
        ⟨.GE_TFMT_8888, .GE_TFMT_5650, 0, false, true, [], 1024, []⟩).fullAlpha = true ↔
      (GETextureFormat.GE_TFMT_5650 = GETextureFormat.GE_TFMT_5650)) :=
  (applyTextureFramebuffer_directBindAlpha
      ⟨.GE_TFMT_8888, .GE_TFMT_5650, 0, false, true, [], 1024, []⟩ (by decide)).1

end DX9
